import Mathlib

/-!
A shallow embedding of scrapy/xpath/selector.py: the classes XPathSelector,
XPathSelectorList and the two concrete variants XmlXPathSelector and
HtmlXPathSelector.

External collaborators (libxml2 parsing and XPath evaluation) are modelled as
explicit data: a parsed document carries its root node together with an
evaluation function standing for its xpathContext (setContextNode followed by
xpathEval).  Byte strings are modelled as already-decoded text, so the
permissive decoding `unicode(-, 'utf-8', errors='ignore')` is the identity on
string data.  Python exceptions are modelled with `Except`; mutation of
response objects (document caching) and allocation of fresh documents are
modelled by threading an explicit system state `Sys`.
-/

namespace ScrapyXPath

/-- Kinds of libxml2 tree nodes the selector dispatches on with isinstance:
`libxml2.xmlDoc`, `libxml2.xmlAttr`, text nodes, and any other node kind
(element and friends), which `extract` treats uniformly via `serialize`. -/
inductive NodeKind
  | document
  | element
  | attribute
  | text
  deriving DecidableEq

/-- A libxml2 tree node.  `serialization` is what `node.serialize('utf-8')`
returns, decoded (`none` models a falsy/absent result, guarded in the source
by `if data else u''`); `content` is `node.content` / `node.getContent()`;
`rootSer` is, for document nodes, `getRootElement().serialize('utf-8')`. -/
structure TreeNode where
  kind : NodeKind
  serialization : Option String
  content : String
  rootSer : Option String
  deriving DecidableEq

/-- A Python scalar that is neither a string nor a libxml2 node (e.g. a float
returned by an XPath like `count(...)`).  `udecode` is the result of
`unicode(v, 'utf-8', errors='ignore')`, with `none` modelling the TypeError
raised for non-buffer values; `ustr` is the generic conversion `unicode(v)`. -/
structure PyScalar where
  udecode : Option String
  ustr : String
  deriving DecidableEq

/-- The value bound to a selector's `xmlNode` attribute: a Python basestring,
a libxml2 tree node (which has both `serialize` and `xpathEval`), or some
other scalar (no `serialize`, no `xpathEval`). -/
inductive NodeRef
  | str (s : String)
  | node (t : TreeNode)
  | scalar (v : PyScalar)
  deriving DecidableEq

/-- The Python value `None`: not a basestring, no `serialize`/`xpathEval`
attribute, `unicode(None, 'utf-8')` raises TypeError, `unicode(None) = u'None'`. -/
def pyNone : NodeRef := .scalar ⟨none, "None"⟩

/-- Models `hasattr(self.xmlNode, 'xpathEval')`: only libxml2 nodes carry it. -/
def supportsQuery : NodeRef → Bool
  | .node _ => true
  | _ => false

/-- Result of `xpathContext.xpathEval` on a context node: a node-set (a Python
list, which has `__iter__`), a single non-iterable scalar value, or a
`libxml2.xpathError` for malformed expressions. -/
inductive XPathResult
  | nodeset (nodes : List TreeNode)
  | single (v : NodeRef)
  | err

/-- Parsing mode: `xmlDoc_from_html` versus `xmlDoc_from_xml`. -/
inductive Mode
  | htmlM
  | xmlM
  deriving DecidableEq

/-- The outcome of a successful parse: the tree root (an xmlDoc node) plus the
evaluation function of its xpathContext, taking the current context node and
the query expression. -/
structure ParsedDoc where
  root : TreeNode
  xpathEval : TreeNode → String → XPathResult

/-- The external markup parser (the factories `xmlDoc_from_html` /
`xmlDoc_from_xml` backed by libxml2); `none` models a parse error. -/
structure Env where
  parse : Mode → String → Option ParsedDoc

/-- A Libxml2Document: an owned parsed tree plus evaluation context.  The `id`
field gives each separately built document a distinct identity, so that
"same Document Handle instance" is expressible. -/
structure Doc where
  id : Nat
  mode : Mode
  parsed : ParsedDoc

/-- The class of the selector: the base class XPathSelector, or one of the two
concrete variants HtmlXPathSelector / XmlXPathSelector.  `cls = type(self)` in
the source makes query results carry the same class. -/
inductive Variant
  | base
  | htmlV
  | xmlV
  deriving DecidableEq

/-- The `xmlDoc_factory` of each class: the base class and HtmlXPathSelector
use `xmlDoc_from_html`, XmlXPathSelector uses `xmlDoc_from_xml`. -/
def Variant.mode : Variant → Mode
  | .xmlV => .xmlM
  | _ => .htmlM

/-- A response object (the source object roots are built from).  `hasAccessor`
records whether it exposes `getlibxml2doc` (absence raises AttributeError);
`cacheHtml`/`cacheXml` are its per-factory cached documents; `parses` counts
parser invocations against this source (the counter of spec section 8). -/
structure Source where
  body : String
  hasAccessor : Bool
  cacheHtml : Option Doc
  cacheXml : Option Doc
  parses : Nat

/-- The cached document of a source for a given parsing mode. -/
def Source.cacheFor : Source → Mode → Option Doc
  | s, .htmlM => s.cacheHtml
  | s, .xmlM => s.cacheXml

/-- Store a document in the per-mode cache slot of a source. -/
def Source.setCache : Source → Mode → Doc → Source
  | s, .htmlM, d => ⟨s.body, s.hasAccessor, some d, s.cacheXml, s.parses⟩
  | s, .xmlM, d => ⟨s.body, s.hasAccessor, s.cacheHtml, some d, s.parses⟩

/-- Record one parser invocation against a source. -/
def Source.bumpParses (s : Source) : Source :=
  ⟨s.body, s.hasAccessor, s.cacheHtml, s.cacheXml, s.parses + 1⟩

/-- The mutable world: the heap of response objects (selectors refer to them
by index) and a counter handing out fresh document identities. -/
structure Sys where
  sources : List Source
  nextDocId : Nat

/-- The source object a selector's `response` index refers to.  Out-of-range
indices cannot arise from Python references; they read as an inert default. -/
def Sys.sourceAt (sys : Sys) (i : Nat) : Source :=
  sys.sources.getD i ⟨"", false, none, none, 0⟩

/-- The Python exceptions the embedded code can raise. -/
inductive Err
  | attributeError
  | parseError
  | invalidXPath (expr : String)
  deriving DecidableEq

/-- The state of an XPathSelector object: its class, its `doc` and `xmlNode`
attributes (`none` meaning the attribute was never assigned, which happens when
no branch of the constructor fires), the query expression that produced it and
its back-reference to the originating response. -/
structure XPathSelector where
  variant : Variant
  doc : Option Doc
  xmlNode : Option NodeRef
  expr : Option String
  response : Option Nat

/-- An element of an XPathSelectorList: a selector, or a raw scalar carried
over from a prior extraction (the list class tests with isinstance). -/
inductive SelOrRaw
  | sel (s : XPathSelector)
  | raw (v : NodeRef)

/-- An XPathSelectorList (a `list` subclass in the source). -/
structure XPathSelectorList where
  elems : List SelOrRaw

/-- The node-kind dispatch of `XPathSelector.extract`: basestring data is
decoded permissively; xmlDoc nodes serialize their root element; xmlAttr nodes
return their literal `content` (bypassing serialization, which "doesn't work
sometimes" for them); other libxml2 nodes serialize themselves (an absent or
falsy serialization yields `u''`); any other scalar is decoded if possible and
otherwise converted with plain `unicode(...)` (the TypeError fallback). -/
def extractNode : NodeRef → String
  | .str s => s
  | .node t =>
    match t.kind with
    | .document => t.rootSer.getD ""
    | .attribute => t.content
    | _ => t.serialization.getD ""
  | .scalar v => v.udecode.getD v.ustr

/-- `XPathSelector.extract`.  Accessing a never-assigned `xmlNode` attribute
raises AttributeError; otherwise the node-kind dispatch above applies. -/
def XPathSelector.extract (s : XPathSelector) : Except Err String :=
  match s.xmlNode with
  | none => .error .attributeError
  | some n => .ok (extractNode n)

/-- `XPathSelector.__nonzero__`: `bool(self.extract())`. -/
def XPathSelector.nonzero (s : XPathSelector) : Except Err Bool :=
  match s.extract with
  | .error e => .error e
  | .ok t => .ok (t != "")

/-- Modelled from the spec: `Response.getlibxml2doc` and `Libxml2Document`
live in scrapy/xpath/extension.py, which is not under src/.  Spec section 4.1:
"if `source` exposes a cached handle for `mode`, returns it; otherwise calls
build and, if possible, stores the result back onto `source`".  A source
without the accessor raises AttributeError, which the selector constructor
catches and answers by building an uncached Libxml2Document; either build
invokes the parser once (counted in `parses`) and a failed parse raises. -/
def acquireDoc (env : Env) (mode : Mode) (i : Nat) (sys : Sys) :
    Except Err Doc × Sys :=
  let src := sys.sourceAt i
  if src.hasAccessor then
    match src.cacheFor mode with
    | some d => (.ok d, sys)
    | none =>
      match env.parse mode src.body with
      | none => (.error .parseError, ⟨sys.sources.set i src.bumpParses, sys.nextDocId⟩)
      | some p =>
        let d : Doc := ⟨sys.nextDocId, mode, p⟩
        (.ok d, ⟨sys.sources.set i (Source.setCache src.bumpParses mode d), sys.nextDocId + 1⟩)
  else
    match env.parse mode src.body with
    | none => (.error .parseError, ⟨sys.sources.set i src.bumpParses, sys.nextDocId⟩)
    | some p =>
      (.ok ⟨sys.nextDocId, mode, p⟩, ⟨sys.sources.set i src.bumpParses, sys.nextDocId + 1⟩)

/-- The `elif response: ... elif text: ... ` tail of `XPathSelector.__init__`,
reached when the `parent` argument is absent or falsy.  The text branch
synthesizes a fresh TextResponse over the text (modelled from the spec, since
TextResponse and unicode_to_str are not under src/: a new source object with no
cached-handle accessor) and builds an uncached document from it.  When no
branch fires, neither `doc` nor `xmlNode` is ever assigned. -/
def selInitFallback (env : Env) (variant : Variant) (response : Option Nat)
    (text : Option String) (expr : Option String) (sys : Sys) :
    Except Err XPathSelector × Sys :=
  match response with
  | some i =>
    match acquireDoc env variant.mode i sys with
    | (.error e, sys') => (.error e, sys')
    | (.ok d, sys') => (.ok ⟨variant, some d, some (.node d.parsed.root), expr, some i⟩, sys')
  | none =>
    match text with
    | some t =>
      if t = "" then (.ok ⟨variant, none, none, expr, none⟩, sys)
      else
        let i := sys.sources.length
        let sys1 : Sys := ⟨sys.sources ++ [⟨t, false, none, none, 0⟩], sys.nextDocId⟩
        match acquireDoc env variant.mode i sys1 with
        | (.error e, sys') => (.error e, sys')
        | (.ok d, sys') => (.ok ⟨variant, some d, some (.node d.parsed.root), expr, some i⟩, sys')
    | none => (.ok ⟨variant, none, none, expr, none⟩, sys)

/-- `XPathSelector.__init__(response, text, node, parent, expr)`.  Note that
the source guards the first branch with `if parent:`, which goes through
`__nonzero__` and hence `extract()`: a falsy parent (one whose extraction is
the empty string) falls through to the response/text branches.  In the parent
branch `self.doc = parent.doc` (AttributeError when the parent never got a
`doc`) and `self.xmlNode = node` (the Python value `None` when the `node`
argument was omitted). -/
def selInit (env : Env) (variant : Variant) (response : Option Nat)
    (text : Option String) (node : Option NodeRef) (parent : Option XPathSelector)
    (expr : Option String) (sys : Sys) : Except Err XPathSelector × Sys :=
  match parent with
  | some p =>
    match p.extract with
    | .error e => (.error e, sys)
    | .ok t =>
      if t = "" then selInitFallback env variant response text expr sys
      else
        match p.doc with
        | none => (.error .attributeError, sys)
        | some d => (.ok ⟨variant, some d, some (node.getD pyNone), expr, response⟩, sys)
  | none => selInitFallback env variant response text expr sys

/-- The list comprehension in `XPathSelector.x` wrapping each evaluation
result in `cls(node=node, parent=self, expr=xpath, response=self.response)`,
evaluated left to right. -/
def buildChildren (env : Env) (s : XPathSelector) (xpath : String) :
    List NodeRef → Sys → Except Err (List SelOrRaw) × Sys
  | [], sys => (.ok [], sys)
  | n :: ns, sys =>
    match selInit env s.variant s.response none (some n) (some s) (some xpath) sys with
    | (.error e, sys') => (.error e, sys')
    | (.ok c, sys') =>
      match buildChildren env s xpath ns sys' with
      | (.error e, sys'') => (.error e, sys'')
      | (.ok cs, sys'') => (.ok (SelOrRaw.sel c :: cs), sys'')

/-- `XPathSelector.x(xpath)`: when the node supports evaluation, set it as the
context node and evaluate; a `libxml2.xpathError` becomes
`ValueError("Invalid XPath: %s" % xpath)`; an iterable result (a node-set) is
wrapped node by node, a non-iterable scalar result is wrapped as a single
selector; a node reference without `xpathEval` yields an empty list. -/
def XPathSelector.x (s : XPathSelector) (env : Env) (xpath : String) (sys : Sys) :
    Except Err XPathSelectorList × Sys :=
  match s.xmlNode with
  | none => (.error .attributeError, sys)
  | some nr =>
    match nr with
    | .node t =>
      match s.doc with
      | none => (.error .attributeError, sys)
      | some d =>
        match d.parsed.xpathEval t xpath with
        | .err => (.error (.invalidXPath xpath), sys)
        | .nodeset nodes =>
          match buildChildren env s xpath (nodes.map NodeRef.node) sys with
          | (.error e, sys') => (.error e, sys')
          | (.ok cs, sys') => (.ok ⟨cs⟩, sys')
        | .single v =>
          match buildChildren env s xpath [v] sys with
          | (.error e, sys') => (.error e, sys')
          | (.ok cs, sys') => (.ok ⟨cs⟩, sys')
    | _ => (.ok ⟨[]⟩, sys)

/-- `XPathSelector.extract_unquoted`: truthiness of `self.x('self::text()')`
decides whether to return the decoded `getContent()` of the node (libxml2
nodes only) or `u''`. -/
def XPathSelector.extract_unquoted (s : XPathSelector) (env : Env) (sys : Sys) :
    Except Err String × Sys :=
  match s.x env "self::text()" sys with
  | (.error e, sys') => (.error e, sys')
  | (.ok l, sys') =>
    if l.elems.isEmpty then (.ok "", sys')
    else
      match s.xmlNode with
      | some (.node t) => (.ok t.content, sys')
      | _ => (.error .attributeError, sys')

/-- One element of the comprehension `[x.x(xpath) for x in self]` of
`XPathSelectorList.x`: a raw scalar element has no `x` attribute. -/
def elemX (env : Env) (xpath : String) (e : SelOrRaw) (sys : Sys) :
    Except Err XPathSelectorList × Sys :=
  match e with
  | .sel s => s.x env xpath sys
  | .raw _ => (.error .attributeError, sys)

/-- The comprehension `[x.x(xpath) for x in self]`, left to right. -/
def xAll (env : Env) (xpath : String) :
    List SelOrRaw → Sys → Except Err (List XPathSelectorList) × Sys
  | [], sys => (.ok [], sys)
  | e :: rest, sys =>
    match elemX env xpath e sys with
    | (.error er, sys') => (.error er, sys')
    | (.ok l, sys') =>
      match xAll env xpath rest sys' with
      | (.error er, sys'') => (.error er, sys'')
      | (.ok ls, sys'') => (.ok (l :: ls), sys'')

/-- Modelled from the spec: `scrapy.utils.python.flatten` is not under src/;
spec section 4.3: "concatenates all resulting Selector Lists into one flat
list, preserving per-element order, then overall element order". -/
def flattenLists (ls : List XPathSelectorList) : List SelOrRaw :=
  (ls.map XPathSelectorList.elems).flatten

/-- `XPathSelectorList.x(xpath)`:
`XPathSelectorList(flatten([x.x(xpath) for x in self]))`. -/
def XPathSelectorList.x (sl : XPathSelectorList) (env : Env) (xpath : String)
    (sys : Sys) : Except Err XPathSelectorList × Sys :=
  match xAll env xpath sl.elems sys with
  | (.error e, sys') => (.error e, sys')
  | (.ok ls, sys') => (.ok ⟨flattenLists ls⟩, sys')

/-- `XPathSelectorList.__getslice__(i, j)`: wraps the plain list slice back
into an XPathSelectorList, so that x/re/extract stay available on the slice. -/
def XPathSelectorList.getslice (sl : XPathSelectorList) (i j : Nat) :
    XPathSelectorList :=
  ⟨(sl.elems.drop i).take (j - i)⟩

/-- Querying each selector of a list of selectors in turn, threading state:
the right-hand side of the chaining contract ("evaluating q2 relative to each
result of q1"). -/
def queryEach (env : Env) (xpath : String) :
    List XPathSelector → Sys → Except Err (List XPathSelectorList) × Sys
  | [], sys => (.ok [], sys)
  | s :: rest, sys =>
    match s.x env xpath sys with
    | (.error er, sys') => (.error er, sys')
    | (.ok l, sys') =>
      match queryEach env xpath rest sys' with
      | (.error er, sys'') => (.error er, sys'')
      | (.ok ls, sys'') => (.ok (l :: ls), sys'')

/-- The chained call `sl.x(q1).x(q2)`. -/
def xChain (env : Env) (sl : XPathSelectorList) (q1 q2 : String) (sys : Sys) :
    Except Err XPathSelectorList × Sys :=
  match sl.x env q1 sys with
  | (.error e, sys') => (.error e, sys')
  | (.ok r, sys') => r.x env q2 sys'

/-- Constructing a root selector from a response object:
`cls(response)` with all other arguments at their defaults. -/
def mkRoot (env : Env) (variant : Variant) (i : Nat) (sys : Sys) :
    Except Err XPathSelector × Sys :=
  selInit env variant (some i) none none none none sys

/-- Constructing `n` independent root selectors from the same response. -/
def mkRoots (env : Env) (variant : Variant) (i : Nat) :
    Nat → Sys → List (Except Err XPathSelector) × Sys
  | 0, sys => ([], sys)
  | n + 1, sys =>
    let r := mkRoot env variant i sys
    let rs := mkRoots env variant i n r.2
    (r.1 :: rs.1, rs.2)

/-- A document whose evaluation context is XPath-conformant on the query
`self::text()`: evaluated at context node `t` it returns the node-set `[t]`
when `t` is a text node and the empty node-set otherwise. -/
def SelfTextConformant (d : Doc) : Prop :=
  ∀ t : TreeNode, d.parsed.xpathEval t "self::text()" =
    .nodeset (if t.kind = .text then [t] else [])

/-- Document acquisition from a response succeeds (no parse error). -/
def AcquireOk (env : Env) (mode : Mode) (i : Nat) (sys : Sys) : Prop :=
  ∃ d sys', acquireDoc env mode i sys = (.ok d, sys')

/- Concrete fixtures: the document <a href="http://x"/> with its nodes, an
evaluator behaving like libxml2 on a handful of fixed queries, a response
object carrying it and the system state around them.  Used by the witnesses. -/

/-- The element node <a href="http://x"/>. -/
def elemA : TreeNode := ⟨.element, some "<a href=\"http://x\"/>", "", none⟩

/-- The attribute node href="http://x" (its `serialize` output differs from
its literal value, which is why the source bypasses serialization here). -/
def attrHref : TreeNode := ⟨.attribute, some " href=\"http://x\"", "http://x", none⟩

/-- An attribute node with an empty value, as produced by href="". -/
def emptyAttr : TreeNode := ⟨.attribute, some " href=\"\"", "", none⟩

/-- The text node `hello`. -/
def textHello : TreeNode := ⟨.text, some "hello", "hello", none⟩

/-- The xmlDoc node of the fixture document. -/
def rootNode : TreeNode := ⟨.document, none, "", some "<a href=\"http://x\"/>"⟩

/-- A fixture evaluator: conformant on `self::text()`, knows `//a` and
`//a/@href`, and reports a syntax error on everything else. -/
def evalA (t : TreeNode) (q : String) : XPathResult :=
  if q = "self::text()" then .nodeset (if t.kind = .text then [t] else [])
  else if q = "//a" then .nodeset [elemA]
  else if q = "//a/@href" then .nodeset [attrHref]
  else .err

/-- The fixture parse result. -/
def parsedA : ParsedDoc := ⟨rootNode, evalA⟩

/-- The fixture document handle. -/
def docA : Doc := ⟨0, .htmlM, parsedA⟩

/-- A parser that knows how to parse the fixture body only. -/
def envA : Env := ⟨fun _ b => if b = "<a/>" then some parsedA else none⟩

/-- A response object exposing the cached-handle accessor, not yet parsed. -/
def srcA : Source := ⟨"<a/>", true, none, none, 0⟩

/-- The fixture world: one response, document id 0 already handed out. -/
def sysA : Sys := ⟨[srcA], 1⟩

/-- A root selector over the fixture document. -/
def selRoot : XPathSelector := ⟨.htmlV, some docA, some (.node rootNode), none, some 0⟩

/-- A selector over a raw string produced by a prior extraction. -/
def strSel : XPathSelector := ⟨.htmlV, some docA, some (.str "hello"), some "string(//a)", some 0⟩

/-- A selector over a float scalar, as produced by `count(...)`. -/
def floatSel : XPathSelector := ⟨.htmlV, some docA, some (.scalar ⟨none, "3.14"⟩), some "count(//a)", some 0⟩

/-- A selector over the href attribute node. -/
def hrefSel : XPathSelector := ⟨.htmlV, some docA, some (.node attrHref), some "//a/@href", some 0⟩

/-- A selector over the empty attribute node: its extraction is `""`, so the
selector is falsy. -/
def emptyAttrSel : XPathSelector := ⟨.htmlV, some docA, some (.node emptyAttr), some "//a/@href", some 0⟩

/-- A selector over the text node. -/
def textSel : XPathSelector := ⟨.htmlV, some docA, some (.node textHello), some "//text()", some 0⟩

/-- The child selector produced by querying `//a` on the fixture root. -/
def childA : XPathSelector := ⟨.htmlV, some docA, some (.node elemA), some "//a", some 0⟩

/-- The grandchild selector produced by querying `//a/@href` on `childA`. -/
def grandA : XPathSelector := ⟨.htmlV, some docA, some (.node attrHref), some "//a/@href", some 0⟩

/-- A one-element selector list holding the fixture root. -/
def slA : XPathSelectorList := ⟨[.sel selRoot]⟩

/-- C1: on a selector whose node supports query evaluation, a query whose
expression the evaluation context rejects as malformed raises
`ValueError("Invalid XPath: %s" % xpath)` carrying the offending expression,
and in particular never returns an (empty or other) selector list. -/
theorem query_invalid_raises (env : Env) (s : XPathSelector) (t : TreeNode)
    (d : Doc) (expr : String) (sys : Sys)
    (hn : s.xmlNode = some (.node t)) (hd : s.doc = some d)
    (he : d.parsed.xpathEval t expr = .err) :
    s.x env expr sys = (.error (.invalidXPath expr), sys) ∧
      ∀ l sys', s.x env expr sys ≠ (.ok l, sys') := by
  have hx : s.x env expr sys = (.error (.invalidXPath expr), sys) := by
    simp [XPathSelector.x, hn, hd, he]
  refine ⟨hx, ?_⟩
  intro l sys' hcontra
  rw [hx] at hcontra
  exact absurd (congrArg Prod.fst hcontra) (by simp)

/-- C1 witness: the fixture evaluator rejects the expression `"[["`. -/
theorem query_invalid_raises_witness :
    selRoot.x envA "[[" sysA = (.error (.invalidXPath "[["), sysA) :=
  (query_invalid_raises envA selRoot rootNode docA "[[" sysA rfl rfl rfl).1

/-- C2: on a selector whose node reference does not support query evaluation
(a raw string or other scalar), every query returns an empty selector list,
never raises, and leaves the world untouched. -/
theorem query_scalar_degrades_empty (env : Env) (s : XPathSelector)
    (nr : NodeRef) (expr : String) (sys : Sys)
    (hn : s.xmlNode = some nr) (hq : supportsQuery nr = false) :
    s.x env expr sys = (.ok ⟨[]⟩, sys) ∧
      ∀ e sys', s.x env expr sys ≠ (.error e, sys') := by
  have hx : s.x env expr sys = (.ok ⟨[]⟩, sys) := by
    cases nr with
    | str v => simp [XPathSelector.x, hn]
    | node t => simp [supportsQuery] at hq
    | scalar v => simp [XPathSelector.x, hn]
  refine ⟨hx, ?_⟩
  intro e sys' hcontra
  rw [hx] at hcontra
  exact absurd (congrArg Prod.fst hcontra) (by simp)

/-- C2 witness: a selector over the raw string `"hello"`. -/
theorem query_scalar_degrades_empty_witness :
    strSel.x envA "//a" sysA = (.ok ⟨[]⟩, sysA) :=
  (query_scalar_degrades_empty envA strSel (.str "hello") "//a" sysA rfl rfl).1

/-- C6: extracting a selector over an attribute node returns exactly the
attribute's literal `content`, bypassing the generic serialization (whatever
the node's `serialization` field holds). -/
theorem attribute_extract_literal (s : XPathSelector) (t : TreeNode)
    (hn : s.xmlNode = some (.node t)) (hk : t.kind = .attribute) :
    s.extract = .ok t.content := by
  simp [XPathSelector.extract, hn, extractNode, hk]

/-- C6 witness: the href attribute of <a href="http://x"/> extracts to
exactly `http://x`, although its serialization is ` href="http://x"`. -/
theorem attribute_extract_literal_witness :
    hrefSel.extract = .ok "http://x" :=
  attribute_extract_literal hrefSel attrHref rfl rfl

/-- C8: the boolean value of a selector is false exactly when its extraction
is the empty string, and any selector with a non-empty extraction is truthy. -/
theorem selector_truthiness (s : XPathSelector) (nr : NodeRef)
    (hn : s.xmlNode = some nr) :
    (s.nonzero = .ok false ↔ s.extract = .ok "") ∧
      (∀ t, s.extract = .ok t → t ≠ "" → s.nonzero = .ok true) := by
  constructor
  · constructor
    · intro h
      simp only [XPathSelector.nonzero, XPathSelector.extract, hn] at h ⊢
      have : (extractNode nr != "") = false := by
        exact (Except.ok.inj h)
      simp only [bne_eq_false_iff_eq] at this
      simp [this]
    · intro h
      simp only [XPathSelector.extract, hn] at h
      have : extractNode nr = "" := Except.ok.inj h
      simp [XPathSelector.nonzero, XPathSelector.extract, hn, this]
  · intro t ht hne
    simp only [XPathSelector.extract, hn] at ht
    have : extractNode nr = t := Except.ok.inj ht
    simp [XPathSelector.nonzero, XPathSelector.extract, hn, this, hne]

/-- C8 witness: the empty-attribute selector extracts to `""` and is falsy. -/
theorem selector_truthiness_witness :
    (emptyAttrSel.nonzero = .ok false ↔ emptyAttrSel.extract = .ok "") ∧
      (∀ t, emptyAttrSel.extract = .ok t → t ≠ "" → emptyAttrSel.nonzero = .ok true) :=
  selector_truthiness emptyAttrSel (.node emptyAttr) rfl

/-- C9: a slice of a selector list is itself a selector list (by the type of
`getslice`) holding exactly the elements of the sliced range of the original
list, in the same order: element `k` of `sl.getslice i j` is element `i + k`
of `sl`, for `k < j - i`, and nothing else. -/
theorem slice_is_selector_list (sl : XPathSelectorList) (i j k : Nat) :
    (sl.getslice i j).elems.get? k =
      if k < j - i then sl.elems.get? (i + k) else none := by
  unfold XPathSelectorList.getslice
  by_cases h : k < j - i
  · rw [if_pos h]
    rw [List.get?_take h, List.get?_drop]
  · rw [if_neg h]
    apply List.get?_eq_none.mpr
    calc ((sl.elems.drop i).take (j - i)).length ≤ j - i := by
          rw [List.length_take]; exact Nat.min_le_left _ _
      _ ≤ k := Nat.le_of_not_lt h

/-- C10: `extract()` is total over every node kind: it always yields a string;
a raw string is returned (permissively decoded, here the decoded text itself);
a serializable non-document non-attribute node with an absent serialization
yields the empty string, as does a document whose root serialization is
absent; and a scalar that cannot be decoded as text falls back to the generic
string conversion. -/
theorem extract_total (s : XPathSelector) (nr : NodeRef)
    (hn : s.xmlNode = some nr) :
    (∃ t, s.extract = .ok t) ∧
      (∀ v, nr = .str v → s.extract = .ok v) ∧
      (∀ t, nr = .node t → t.kind ≠ .document → t.kind ≠ .attribute →
        t.serialization = none → s.extract = .ok "") ∧
      (∀ t, nr = .node t → t.kind = .document → t.rootSer = none →
        s.extract = .ok "") ∧
      (∀ v, nr = .scalar v → v.udecode = none → s.extract = .ok v.ustr) := by
  refine ⟨⟨extractNode nr, by simp [XPathSelector.extract, hn]⟩, ?_, ?_, ?_, ?_⟩
  · intro v hv
    subst hv
    simp [XPathSelector.extract, hn, extractNode]
  · intro t ht hdoc hattr hser
    subst ht
    cases hk : t.kind
    · exact absurd hk hdoc
    · simp [XPathSelector.extract, hn, extractNode, hk, hser]
    · exact absurd hk hattr
    · simp [XPathSelector.extract, hn, extractNode, hk, hser]
  · intro t ht hk hroot
    subst ht
    simp [XPathSelector.extract, hn, extractNode, hk, hroot]
  · intro v hv hdec
    subst hv
    simp [XPathSelector.extract, hn, extractNode, hdec]

/-- C10 witness: a float scalar (which `unicode(-, 'utf-8')` rejects with a
TypeError) still extracts, to its generic string conversion. -/
theorem extract_total_witness :
    ∃ t, floatSel.extract = .ok t :=
  (extract_total floatSel (.scalar ⟨none, "3.14"⟩) rfl).1

lemma xAll_map_sel (env : Env) (q : String) (sels : List XPathSelector) :
    ∀ sys : Sys, xAll env q (sels.map SelOrRaw.sel) sys = queryEach env q sels sys := by
  induction sels with
  | nil => intro sys; rfl
  | cons s rest ih =>
    intro sys
    simp only [List.map_cons, xAll, queryEach, elemX, ih]

/-- C4: the chained call `sl.x(q1).x(q2)` equals the concatenation, parent by
parent and in order, of the results of evaluating `q2` on each selector
produced by `sl.x(q1)`: when the first query succeeds with result `res`
(whose elements are the selectors `sels`) and evaluating `q2` on each of them
in turn succeeds with the lists `parts`, the chained query returns exactly the
flat concatenation of `parts`. -/
theorem list_query_chains_flatten (env : Env) (sl : XPathSelectorList)
    (q1 q2 : String) (sys : Sys) (res : XPathSelectorList) (sys1 : Sys)
    (sels : List XPathSelector) (parts : List XPathSelectorList) (sys2 : Sys)
    (h1 : sl.x env q1 sys = (.ok res, sys1))
    (h2 : res.elems = sels.map SelOrRaw.sel)
    (h3 : queryEach env q2 sels sys1 = (.ok parts, sys2)) :
    xChain env sl q1 q2 sys = (.ok ⟨flattenLists parts⟩, sys2) ∧
      res.x env q2 sys1 = (.ok ⟨flattenLists parts⟩, sys2) := by
  have hres : res.x env q2 sys1 = (.ok ⟨flattenLists parts⟩, sys2) := by
    unfold XPathSelectorList.x
    rw [h2, xAll_map_sel, h3]
  refine ⟨?_, hres⟩
  unfold xChain
  rw [h1]
  exact hres

/-- C4 witness: on the fixture, `[root].x("//a").x("//a/@href")` is the
flattened per-parent evaluation. -/
theorem list_query_chains_flatten_witness :
    xChain envA slA "//a" "//a/@href" sysA = (.ok ⟨[.sel grandA]⟩, sysA) :=
  (list_query_chains_flatten envA slA "//a" "//a/@href" sysA ⟨[.sel childA]⟩
    sysA [childA] [⟨[.sel grandA]⟩] sysA rfl rfl rfl).1

/-- C5, evaluated at the failing input: a selector over an attribute node with
an empty value is falsy (its extraction is `""`), so the constructor guard
`if parent:` rejects it and child construction falls through to the
`elif response:` branch.  Querying `//a` on it matches the element node, yet
the returned child selector wraps the document root obtained by re-acquiring
the response's document, not the matched node; it does not share the parent's
document handle (a second parse is counted against the source). -/
theorem falsy_parent_child_misconstructed :
    ∃ c sysOut,
      emptyAttrSel.x envA "//a" sysA = (.ok ⟨[.sel c]⟩, sysOut) ∧
      docA.parsed.xpathEval emptyAttr "//a" = .nodeset [elemA] ∧
      c.xmlNode = some (.node rootNode) ∧
      c.xmlNode ≠ some (.node elemA) ∧
      c.doc ≠ emptyAttrSel.doc ∧
      (sysOut.sourceAt 0).parses = (sysA.sourceAt 0).parses + 1 := by
  refine ⟨⟨.htmlV, some ⟨1, .htmlM, parsedA⟩, some (.node rootNode), some "//a", some 0⟩,
    ⟨[Source.setCache srcA.bumpParses .htmlM ⟨1, .htmlM, parsedA⟩], 2⟩, rfl, rfl, rfl, ?_, ?_, rfl⟩
  · decide
  · simp [emptyAttrSel, docA]

lemma getD_set_self {α : Type} :
    ∀ (l : List α) (i : Nat) (a d : α), i < l.length → (l.set i a).getD i d = a := by
  intro l
  induction l with
  | nil => intro i a d h; exact absurd h (by simp)
  | cons x xs ih =>
    intro i a d h
    cases i with
    | zero => rfl
    | succ n => exact ih n a d (Nat.lt_of_succ_lt_succ h)

lemma setCache_cacheFor (s : Source) (m : Mode) (d : Doc) :
    (s.setCache m d).cacheFor m = some d := by
  cases m <;> rfl

lemma setCache_hasAccessor (s : Source) (m : Mode) (d : Doc) :
    (s.setCache m d).hasAccessor = s.hasAccessor := by
  cases m <;> rfl

lemma setCache_parses (s : Source) (m : Mode) (d : Doc) :
    (s.setCache m d).parses = s.parses := by
  cases m <;> rfl

lemma mkRoot_cached (env : Env) (variant : Variant) (i : Nat) (sys : Sys) (d : Doc)
    (hacc : (sys.sourceAt i).hasAccessor = true)
    (hc : (sys.sourceAt i).cacheFor variant.mode = some d) :
    mkRoot env variant i sys =
      (.ok ⟨variant, some d, some (.node d.parsed.root), none, some i⟩, sys) := by
  unfold mkRoot selInit selInitFallback acquireDoc
  simp [hacc, hc]

lemma mkRoot_build (env : Env) (variant : Variant) (i : Nat) (sys : Sys) (pr : ParsedDoc)
    (hacc : (sys.sourceAt i).hasAccessor = true)
    (hc : (sys.sourceAt i).cacheFor variant.mode = none)
    (hp : env.parse variant.mode (sys.sourceAt i).body = some pr) :
    mkRoot env variant i sys =
      (.ok ⟨variant, some ⟨sys.nextDocId, variant.mode, pr⟩, some (.node pr.root), none, some i⟩,
       ⟨sys.sources.set i
          (Source.setCache (sys.sourceAt i).bumpParses variant.mode ⟨sys.nextDocId, variant.mode, pr⟩),
        sys.nextDocId + 1⟩) := by
  unfold mkRoot selInit selInitFallback acquireDoc
  simp [hacc, hc, hp]

lemma mkRoots_cached (env : Env) (variant : Variant) (i : Nat) (d : Doc) (n : Nat) :
    ∀ sys : Sys, (sys.sourceAt i).hasAccessor = true →
      (sys.sourceAt i).cacheFor variant.mode = some d →
      mkRoots env variant i n sys =
        (List.replicate n (.ok ⟨variant, some d, some (.node d.parsed.root), none, some i⟩), sys) := by
  induction n with
  | zero => intro sys _ _; rfl
  | succ m ih =>
    intro sys hacc hc
    simp only [mkRoots, mkRoot_cached env variant i sys d hacc hc, ih sys hacc hc,
      List.replicate_succ]

/-- C3: a response object that exposes the cached-handle accessor is parsed
exactly once, however many root selectors are independently constructed from
it in a given mode, and every such selector carries the very same document
handle `d`. -/
theorem single_parse_shared_doc (env : Env) (variant : Variant) (i : Nat)
    (sys : Sys) (n : Nat) (pr : ParsedDoc)
    (hi : i < sys.sources.length)
    (hacc : (sys.sourceAt i).hasAccessor = true)
    (hcache : (sys.sourceAt i).cacheFor variant.mode = none)
    (hp : env.parse variant.mode (sys.sourceAt i).body = some pr) :
    ∃ d : Doc,
      ((mkRoots env variant i n sys).2.sourceAt i).parses =
        (sys.sourceAt i).parses + min n 1 ∧
      ∀ r ∈ (mkRoots env variant i n sys).1,
        r = .ok ⟨variant, some d, some (.node d.parsed.root), none, some i⟩ := by
  cases n with
  | zero =>
    refine ⟨⟨sys.nextDocId, variant.mode, pr⟩, by simp [mkRoots], by simp [mkRoots]⟩
  | succ m =>
    have h1 := mkRoot_build env variant i sys pr hacc hcache hp
    set d : Doc := ⟨sys.nextDocId, variant.mode, pr⟩ with hd
    set sys1 : Sys :=
      ⟨sys.sources.set i (Source.setCache (sys.sourceAt i).bumpParses variant.mode d),
       sys.nextDocId + 1⟩ with hsys1
    have hsrc1 : sys1.sourceAt i =
        Source.setCache (sys.sourceAt i).bumpParses variant.mode d := by
      unfold Sys.sourceAt
      exact getD_set_self sys.sources i _ _ hi
    have hacc1 : (sys1.sourceAt i).hasAccessor = true := by
      rw [hsrc1, setCache_hasAccessor]
      exact hacc
    have hc1 : (sys1.sourceAt i).cacheFor variant.mode = some d :=
      hsrc1 ▸ setCache_cacheFor _ _ _
    have h2 := mkRoots_cached env variant i d m sys1 hacc1 hc1
    have hall : mkRoots env variant i (m + 1) sys =
        ((.ok ⟨variant, some d, some (.node d.parsed.root), none, some i⟩) ::
          List.replicate m (.ok ⟨variant, some d, some (.node d.parsed.root), none, some i⟩),
         sys1) := by
      simp only [mkRoots, h1, h2]
    refine ⟨d, ?_, ?_⟩
    · rw [hall]
      show (sys1.sourceAt i).parses = (sys.sourceAt i).parses + min (m + 1) 1
      rw [hsrc1, setCache_parses]
      have hmin : min (m + 1) 1 = 1 := by omega
      rw [hmin]
      rfl
    · intro r hr
      rw [hall] at hr
      rcases List.mem_cons.mp hr with h | h
      · exact h
      · exact List.eq_of_mem_replicate h

/-- C3 witness: three root selectors over the fixture response cause one
parse and share one handle. -/
theorem single_parse_shared_doc_witness :
    ∃ d : Doc,
      ((mkRoots envA .htmlV 0 3 sysA).2.sourceAt 0).parses =
        (sysA.sourceAt 0).parses + min 3 1 ∧
      ∀ r ∈ (mkRoots envA .htmlV 0 3 sysA).1,
        r = .ok ⟨.htmlV, some d, some (.node d.parsed.root), none, some 0⟩ :=
  single_parse_shared_doc envA .htmlV 0 sysA 3 parsedA (by decide) rfl rfl rfl

/-- C7: `extract_unquoted` returns the node's raw content exactly when the
node is a text node, the test being the query `self::text()` (here assumed
XPath-conformant, as libxml2's evaluator is); every other node kind — other
tree nodes, raw strings, scalars — yields the empty string.  The last
hypothesis rules out a parse failure while the truthiness quirk of the
constructor rebuilds a document for a falsy selector's child. -/
theorem extract_unquoted_text_only (env : Env) (s : XPathSelector) (sys : Sys)
    (nr : NodeRef) (hn : s.xmlNode = some nr)
    (hd : ∀ t, nr = .node t → ∃ d, s.doc = some d ∧ SelfTextConformant d)
    (hacq : extractNode nr = "" → ∀ i, s.response = some i →
      AcquireOk env s.variant.mode i sys) :
    (s.extract_unquoted env sys).1 =
      .ok (match nr with
        | .node t => if t.kind = .text then t.content else ""
        | _ => "") := by
  cases nr with
  | str v => simp [XPathSelector.extract_unquoted, XPathSelector.x, hn]
  | scalar v => simp [XPathSelector.extract_unquoted, XPathSelector.x, hn]
  | node t =>
    obtain ⟨d, hdoc, hconf⟩ := hd t rfl
    have he := hconf t
    by_cases hk : t.kind = .text
    · simp only [hk, if_pos rfl] at he ⊢
      by_cases hemp : extractNode (.node t) = ""
      · cases hresp : s.response with
        | none =>
          simp [XPathSelector.extract_unquoted, XPathSelector.x, hn, hdoc, he,
            buildChildren, selInit, XPathSelector.extract, hemp, selInitFallback, hresp]
        | some i =>
          obtain ⟨dd, sys', hdd⟩ := hacq hemp i hresp
          simp [XPathSelector.extract_unquoted, XPathSelector.x, hn, hdoc, he,
            buildChildren, selInit, XPathSelector.extract, hemp, selInitFallback,
            hresp, hdd]
      · simp [XPathSelector.extract_unquoted, XPathSelector.x, hn, hdoc, he,
          buildChildren, selInit, XPathSelector.extract, hemp]
    · simp only [if_neg hk] at he ⊢
      simp [XPathSelector.extract_unquoted, XPathSelector.x, hn, hdoc, he,
        buildChildren, hk]

/-- C7 witness: the text-node selector extracts unquoted to its raw content. -/
theorem extract_unquoted_text_only_witness :
    (textSel.extract_unquoted envA sysA).1 = .ok "hello" :=
  extract_unquoted_text_only envA textSel sysA (.node textHello) rfl
    (fun _ ht => by
      cases ht
      exact ⟨docA, rfl, fun u => rfl⟩)
    (fun h => absurd h (by decide))

end ScrapyXPath
